import Mathlib

/-
  Shallow embedding of the cross-datacenter history replicator
  (service/history: historyReplicator) together with the dynamic-config
  wiring of the history service config.  Pure data is translated directly
  from the Go source; operations of the mutable-state builder and of the
  execution context, whose implementations live outside the given sources,
  are modelled from the specification and marked as such.
-/

namespace Cadence

/-- Event types of history events that the replicator inspects (subset of shared.EventType). -/
inductive EventType where
  | workflowExecutionStarted
  | workflowExecutionSignaled
  | workflowExecutionTerminated
  | decisionTaskFailed
  | other
deriving DecidableEq, Repr, Inhabited

/-- History event (shared.HistoryEvent); only the attributes the replicator reads.
Timestamps and heartbeat times are int64 nanoseconds. -/
structure HistoryEvent where
  eventId : Int := 0
  version : Int := 0
  timestamp : Int := 0
  eventType : EventType := EventType.other
  reason : String := ""
  identity : String := ""
  signalName : String := ""
  signalInput : String := ""
  cause : String := ""
deriving DecidableEq, Repr, Inhabited

/-- Modelled from the spec: sentinel for an absent failover version (common.EmptyVersion,
whose definition is outside the given sources); real failover versions are nonnegative. -/
def emptyVersion : Int := -24

/-- Modelled from the spec: sentinel for an absent event id (common.EmptyEventID). -/
def emptyEventID : Int := -23

/-- Fixed termination reason used by terminateWorkflow (source: workflowTerminationReason). -/
def workflowTerminationReason : String := "Terminate Workflow Due To Version Conflict."

/-- Fixed termination identity used by terminateWorkflow (source: workflowTerminationIdentity). -/
def workflowTerminationIdentity : String := "worker-service"

/-- Modelled from the spec: identity the history service stamps on synthesized events
(source constant identityHistoryService lives outside the given sources). -/
def identityHistoryService : String := "history-service"

/-- Modelled from the spec: the decision-task-failed cause used when flushing the
in-flight events buffer (shared.DecisionTaskFailedCauseFailoverCloseDecision). -/
def decisionTaskFailedCauseFailoverCloseDecision : String := "FAILOVER_CLOSE_DECISION"

/-- Replication info record: per-cluster (version, last event id).  The wire form
(shared.ReplicationInfo) and the persisted form (persistence.ReplicationInfo) carry
the same two fields. -/
structure ReplicationInfo where
  version : Int := 0
  lastEventId : Int := 0
deriving DecidableEq, Repr

/-- Replication state of one workflow run (persistence.ReplicationState). -/
structure ReplicationState where
  currentVersion : Int := 0
  lastWriteVersion : Int := 0
  lastWriteEventID : Int := 0
  lastReplicationInfo : List (String × ReplicationInfo) := []
deriving DecidableEq, Repr

/-- In-flight decision task data used by flushEventsBuffer. -/
structure DecisionInfo where
  scheduleID : Int := 0
  startedID : Int := 0
deriving DecidableEq, Repr

/-- Activity info fields read by SyncActivity. -/
structure ActivityInfo where
  version : Int := 0
  attempt : Int := 0
  lastHeartBeatUpdatedTime : Int := 0
deriving DecidableEq, Repr

/-- Buffered out-of-order replication task (persistence.BufferedReplicationTask). -/
structure BufferedReplicationTask where
  firstEventID : Int := 0
  nextEventID : Int := 0
  version : Int := 0
  history : List HistoryEvent := []
deriving DecidableEq, Repr

/-- Modelled from the spec: the mutable-state builder of one workflow run (the
implementation mutableStateBuilder is outside the given sources).  Only the parts the
replicator touches are materialized; buffered in-flight events are abstracted to a flag,
and signals added by garbage collection are recorded as (name, input, identity) triples.
The events field records history events synthesized by the replicator paths. -/
structure MutableState where
  isRunning : Bool := true
  nextEventID : Int := 1
  replicationState : ReplicationState := {}
  hasBufferedEvents : Bool := false
  inFlightDecision : Option DecisionInfo := none
  bufferedReplicationTasks : List (Int × BufferedReplicationTask) := []
  activityInfos : List (Int × ActivityInfo) := []
  signals : List (String × String × String) := []
  events : List HistoryEvent := []
deriving DecidableEq, Repr

/-- ReplicateEventsRequest (h.ReplicateEventsRequest); fields the replicator reads. -/
structure ReplicateEventsRequest where
  sourceCluster : String := ""
  domainID : String := ""
  workflowID : String := ""
  runID : String := ""
  firstEventId : Int := 0
  nextEventId : Int := 0
  version : Int := 0
  replicationInfo : List (String × ReplicationInfo) := []
  history : List HistoryEvent := []
  forceBufferEvents : Bool := false
  resetWorkflow : Bool := false
deriving DecidableEq, Repr

/-- SyncActivityRequest (h.SyncActivityRequest); fields SyncActivity reads. -/
structure SyncActivityRequest where
  version : Int := 0
  scheduledId : Int := 0
  scheduledTime : Int := 0
  startedTime : Int := 0
  lastHeartbeatTime : Int := 0
  attempt : Int := 0
deriving DecidableEq, Repr

/-- Modelled from the spec: cluster-version arithmetic (pure functions of
common/cluster.Metadata, outside the given sources): the originating cluster of a
failover version, the current cluster name, and same-cluster equivalence. -/
structure ClusterMetadata where
  clusterNameForFailoverVersion : Int → String
  currentClusterName : String
  isVersionFromSameCluster : Int → Int → Bool

/-- Error taxonomy surfaced by the replicator paths embedded here. -/
inductive ReplicatorError where
  | unknownEncodingType
  | emptyHistoryRawEventBatch
  | corruptedReplicationInfo
  | corruptedMutableStateDecision
  | moreThan2DC
  | impossibleLocalRemoteMissingReplicationInfo
  | impossibleRemoteClaimSeenHigherVersion
deriving DecidableEq, Repr

/-- Association-list lookup, standing for a Go map read. -/
def assocLookup {α β : Type} [DecidableEq α] : List (α × β) → α → Option β
  | [], _ => none
  | (k, v) :: rest, key => if k = key then some v else assocLookup rest key

/-- Association-list insert/replace, standing for a Go map write. -/
def assocInsert {α β : Type} [DecidableEq α] : List (α × β) → α → β → List (α × β)
  | [], key, value => [(key, value)]
  | (k, v) :: rest, key, value =>
      if k = key then (key, value) :: rest else (k, v) :: assocInsert rest key value

/-- GetLastWriteVersion of the mutable-state builder: the replication-state
last write version (modelled from the spec, section 3, Replication State). -/
def MutableState.getLastWriteVersion (ms : MutableState) : Int :=
  ms.replicationState.lastWriteVersion

/-- canModifyWorkflow (source lines 1635-1638): the cluster owning the current
last write version must be the local cluster. -/
def canModifyWorkflow (cm : ClusterMetadata) (ms : MutableState) : Bool :=
  cm.clusterNameForFailoverVersion ms.getLastWriteVersion = cm.currentClusterName

/-- Modelled from the spec: UpdateReplicationStateVersion with force, setting the
replication-state current version. -/
def updateReplicationStateVersion (version : Int) (ms : MutableState) : MutableState :=
  { ms with replicationState := { ms.replicationState with currentVersion := version } }

/-- Modelled from the spec: AddWorkflowExecutionSignaled appends a signal to mutable
state (recorded as a triple) together with its history event. -/
def addWorkflowExecutionSignaled (signalName signalInput signalIdentity : String)
    (ms : MutableState) : MutableState :=
  { ms with
    signals := ms.signals ++ [(signalName, signalInput, signalIdentity)],
    events := ms.events ++ [{ eventId := ms.nextEventID,
                              version := ms.replicationState.currentVersion,
                              eventType := EventType.workflowExecutionSignaled,
                              signalName := signalName, signalInput := signalInput,
                              identity := signalIdentity }],
    nextEventID := ms.nextEventID + 1 }

/-- Modelled from the spec: AddDecisionTaskFailedEvent synthesizes a DecisionTaskFailed
event, releasing the buffered in-flight events and the in-flight decision. -/
def addDecisionTaskFailedEvent (_scheduleID _startedID : Int) (cause : String)
    (ms : MutableState) : MutableState :=
  { ms with
    events := ms.events ++ [{ eventId := ms.nextEventID,
                              version := ms.replicationState.currentVersion,
                              eventType := EventType.decisionTaskFailed,
                              cause := cause, identity := identityHistoryService }],
    nextEventID := ms.nextEventID + 1,
    hasBufferedEvents := false,
    inFlightDecision := none }

/-- Modelled from the spec: the execution context updateWorkflowExecution persists the
pending mutation and refreshes the replication-state last-write markers to the current
version and the last materialized event id (spec sections 3 and 4.4). -/
def updateWorkflowExecution (ms : MutableState) : MutableState :=
  { ms with replicationState := { ms.replicationState with
      lastWriteVersion := ms.replicationState.currentVersion,
      lastWriteEventID := ms.nextEventID - 1 } }

/-- flushEventsBuffer (source lines 1573-1595): release buffered in-flight events by
failing the in-flight decision with the failover-close-decision cause. -/
def flushEventsBuffer (cm : ClusterMetadata) (ms : MutableState) :
    Except ReplicatorError MutableState :=
  if ms.isRunning = false ∨ ms.hasBufferedEvents = false ∨ canModifyWorkflow cm ms = false then
    Except.ok ms
  else
    match ms.inFlightDecision with
    | none => Except.error ReplicatorError.corruptedMutableStateDecision
    | some di =>
        let ms1 := updateReplicationStateVersion ms.getLastWriteVersion ms
        let ms2 := addDecisionTaskFailedEvent di.scheduleID di.startedID
          decisionTaskFailedCauseFailoverCloseDecision ms1
        Except.ok (updateWorkflowExecution ms2)

/-- One step of the signal-garbage-collection loop of garbageCollectSignals. -/
def gcStep (acc : Bool × MutableState) (e : HistoryEvent) : Bool × MutableState :=
  match e.eventType with
  | EventType.workflowExecutionSignaled =>
      (true, addWorkflowExecutionSignaled e.signalName e.signalInput e.identity acc.2)
  | _ => acc

/-- garbageCollectSignals (source lines 1597-1633): replay the signal events of a stale
batch into mutable state; a no-op unless the workflow is running and modifiable. -/
def garbageCollectSignals (cm : ClusterMetadata) (ms : MutableState)
    (events : List HistoryEvent) : Except ReplicatorError (Bool × MutableState) :=
  if ms.isRunning = false ∨ canModifyWorkflow cm ms = false then
    Except.ok (false, ms)
  else
    let ms1 := updateReplicationStateVersion ms.getLastWriteVersion ms
    let r := events.foldl gcStep (false, ms1)
    if r.1 = false then Except.ok (false, r.2)
    else Except.ok (true, updateWorkflowExecution r.2)

/-- One step of the two maximum-version loops of getLatestCheckpoint. -/
def ckptStep (acc : Int × Int) (p : String × ReplicationInfo) : Int × Int :=
  if acc.1 = emptyVersion ∨ p.2.version > acc.1 then (p.2.version, p.2.lastEventId) else acc

/-- getLatestCheckpoint (source lines 1483-1506): the maximum-version entry over the
remote replication-info map, then the local replication-info map. -/
def getLatestCheckpoint (replicationInfoRemote replicationInfoLocal :
    List (String × ReplicationInfo)) : Int × Int :=
  List.foldl ckptStep (List.foldl ckptStep (emptyVersion, emptyEventID) replicationInfoRemote)
    replicationInfoLocal

/-- Last event of the request history (source indexes len-1; callers guarantee
the batch is non-empty). -/
def lastEventOf (req : ReplicateEventsRequest) : HistoryEvent :=
  req.history.getLastD default

/-- Incoming timestamp of a batch: the timestamp of its last event. -/
def incomingTimestamp (req : ReplicateEventsRequest) : Int :=
  (lastEventOf req).timestamp

/-- Outcome of ApplyOtherEventsVersionChecking.  dropStale carries the post-GC mutable
state and stands for a successful drop; continueApply carries the state handed on to
ApplyOtherEvents; reset records the arguments of the resetMutableState call. -/
inductive VersionCheckOutcome where
  | dropStale (ms : MutableState)
  | continueApply (ms : MutableState)
  | reset (ms : MutableState) (resetLastEventId : Int) (version : Int) (timestamp : Int)
  | failed (e : ReplicatorError)
deriving DecidableEq, Repr

/-- Shared missing-or-rejected branch of ApplyOtherEventsVersionChecking
(source lines 883-902): compute the latest common checkpoint and reset to it. -/
def versionCheckingMissingCase (ms : MutableState) (request : ReplicateEventsRequest) :
    VersionCheckOutcome :=
  let cp := getLatestCheckpoint request.replicationInfo ms.replicationState.lastReplicationInfo
  if cp.1 = emptyVersion then
    VersionCheckOutcome.failed ReplicatorError.impossibleLocalRemoteMissingReplicationInfo
  else
    VersionCheckOutcome.reset ms cp.2 request.version (incomingTimestamp request)

/-- Branch of ApplyOtherEventsVersionChecking taken when the remote replication-info
entry for the previously active (local) cluster is present (source lines 903-935):
rejected-by-remote reset, impossible-higher-version failure, conflict detection against
the local last-write event id, buffer flush and conditional reset. -/
def versionCheckingWithEntry (cm : ClusterMetadata) (ms : MutableState)
    (request : ReplicateEventsRequest) (ri : ReplicationInfo) : VersionCheckOutcome :=
  if ms.replicationState.lastWriteVersion > ri.version then
    versionCheckingMissingCase ms request
  else if ms.replicationState.lastWriteVersion < ri.version then
    VersionCheckOutcome.failed ReplicatorError.impossibleRemoteClaimSeenHigherVersion
  else if ri.lastEventId > ms.replicationState.lastWriteEventID then
    VersionCheckOutcome.failed ReplicatorError.corruptedReplicationInfo
  else
    match flushEventsBuffer cm ms with
    | Except.error e => VersionCheckOutcome.failed e
    | Except.ok ms2 =>
      if ri.lastEventId < ms2.replicationState.lastWriteEventID ∨
          ms2.hasBufferedEvents = true then
        VersionCheckOutcome.reset ms2 ri.lastEventId request.version (incomingTimestamp request)
      else
        VersionCheckOutcome.continueApply ms2

/-- ApplyOtherEventsVersionChecking (source lines 796-936).  The externally supplied
inputs of the DC-migration branch (canDoDCMigration, the EnableDCMigration flag, the
in-retry marker and the last-match-event probe) are passed as parameters. -/
def applyOtherEventsVersionChecking (cm : ClusterMetadata)
    (enableDCMigration doDCMigration inRetry : Bool) (dcExpectedLastEventID : Int)
    (ms : MutableState) (request : ReplicateEventsRequest) : VersionCheckOutcome :=
  let incomingVersion := request.version
  let rState := ms.replicationState
  if rState.lastWriteVersion > incomingVersion then
    match garbageCollectSignals cm ms request.history with
    | Except.error e => VersionCheckOutcome.failed e
    | Except.ok r => VersionCheckOutcome.dropStale r.2
  else if rState.lastWriteVersion = incomingVersion then
    VersionCheckOutcome.continueApply ms
  else
    let previousActiveCluster := cm.clusterNameForFailoverVersion rState.lastWriteVersion
    if previousActiveCluster ≠ cm.currentClusterName then
      if cm.isVersionFromSameCluster incomingVersion rState.lastWriteVersion = true ∧
          doDCMigration = false then
        VersionCheckOutcome.continueApply ms
      else if enableDCMigration = true ∧ doDCMigration = true ∧ inRetry = true then
        VersionCheckOutcome.continueApply ms
      else if enableDCMigration = true ∧ doDCMigration = true then
        if dcExpectedLastEventID < rState.lastWriteEventID then
          VersionCheckOutcome.reset ms dcExpectedLastEventID (lastEventOf request).version
            (lastEventOf request).timestamp
        else
          VersionCheckOutcome.continueApply ms
      else
        VersionCheckOutcome.failed ReplicatorError.moreThan2DC
    else
      match assocLookup request.replicationInfo previousActiveCluster with
      | none => versionCheckingMissingCase ms request
      | some ri => versionCheckingWithEntry cm ms request ri

/-- Modelled from the spec: BufferReplicationTask stores the out-of-order batch keyed by
its first event id. -/
def bufferReplicationTask (ms : MutableState) (req : ReplicateEventsRequest) : MutableState :=
  let bt : BufferedReplicationTask :=
    { firstEventID := req.firstEventId, nextEventID := req.nextEventId,
      version := req.version, history := req.history }
  { ms with bufferedReplicationTasks :=
      assocInsert ms.bufferedReplicationTasks req.firstEventId bt }

/-- Outcome of ApplyOtherEvents.  retryBufferEvents records the next-event-id hint of the
RetryTaskError (its domain, workflow and run identifiers, taken from the execution
context, are omitted). -/
inductive ApplyOtherEventsOutcome where
  | dropDuplicate
  | dropNotRunning
  | retryBufferEvents (nextEventID : Int)
  | dropOlderBufferedExists
  | buffered (ms : MutableState)
  | applyNow
deriving DecidableEq, Repr

/-- ApplyOtherEvents (source lines 938-1005): duplicate drop, immediate apply, or
out-of-order buffering of a version-checked non-start batch. -/
def applyOtherEvents (ms : MutableState) (req : ReplicateEventsRequest) :
    ApplyOtherEventsOutcome :=
  if req.firstEventId < ms.nextEventID then
    ApplyOtherEventsOutcome.dropDuplicate
  else if req.firstEventId > ms.nextEventID then
    if ms.isRunning = false then
      ApplyOtherEventsOutcome.dropNotRunning
    else if req.forceBufferEvents = false then
      ApplyOtherEventsOutcome.retryBufferEvents ms.nextEventID
    else
      match assocLookup ms.bufferedReplicationTasks req.firstEventId with
      | some bt =>
          if bt.version ≥ req.version then ApplyOtherEventsOutcome.dropOlderBufferedExists
          else ApplyOtherEventsOutcome.buffered (bufferReplicationTask ms req)
      | none => ApplyOtherEventsOutcome.buffered (bufferReplicationTask ms req)
  else
    ApplyOtherEventsOutcome.applyNow

/-- Outcome of SyncActivity restricted to one loaded, valid-run mutable state. -/
inductive SyncActivityOutcome where
  | dropNotRunning
  | dropStaleVersion
  | retrySyncActivity (nextEventID : Int)
  | dropActivityNotFound
  | noop
  | apply (resetActivityTimerTaskStatus : Bool)
deriving DecidableEq, Repr

/-- SyncActivity (source lines 510-568): version/attempt/heartbeat comparison against the
stored activity info, and the timer-status reset decision. -/
def syncActivity (cm : ClusterMetadata) (ms : MutableState) (req : SyncActivityRequest) :
    SyncActivityOutcome :=
  if ms.isRunning = false then
    SyncActivityOutcome.dropNotRunning
  else if req.scheduledId ≥ ms.nextEventID then
    if req.version < ms.getLastWriteVersion then SyncActivityOutcome.dropStaleVersion
    else SyncActivityOutcome.retrySyncActivity ms.nextEventID
  else
    match assocLookup ms.activityInfos req.scheduledId with
    | none => SyncActivityOutcome.dropActivityNotFound
    | some ai =>
      if ai.version > req.version then
        SyncActivityOutcome.noop
      else if ai.version = req.version ∧ ai.attempt > req.attempt then
        SyncActivityOutcome.noop
      else if ai.version = req.version ∧ ai.attempt = req.attempt ∧
          ai.lastHeartBeatUpdatedTime > req.lastHeartbeatTime then
        SyncActivityOutcome.noop
      else
        SyncActivityOutcome.apply
          (!(cm.isVersionFromSameCluster req.version ai.version) || decide (ai.attempt < req.attempt))

/-- Workflow execution state of the current run as reported by the storage conflict
(persistence.WorkflowState); the replicator only distinguishes completed. -/
inductive WorkflowState where
  | running
  | completed
deriving DecidableEq, Repr

/-- Result of CreateWorkflowExecution in brand-new mode. -/
inductive CreateResult where
  | ok
  | alreadyStarted (runID : String) (state : WorkflowState) (lastWriteVersion : Int)
  | otherError
deriving DecidableEq, Repr

/-- Which half-written history the stale-start path deletes. -/
inductive DeleteHistoryKind where
  | deleteBranchV2
  | deleteExecutionHistoryV1
deriving DecidableEq, Repr

/-- Outcome of the replicateWorkflowStarted conflict handling. -/
inductive ReplicateStartedOutcome where
  | created
  | failedOther
  | dropDuplicateStart
  | createReuseCompleted (prevRunID : String) (prevLastWriteVersion : Int)
  | dropStaleStart (del : DeleteHistoryKind)
  | retryExistingWorkflow (runID : String) (nextEventID : Int)
  | terminateAndCreateReuse (termVersion termTimestamp : Int) (prevRunID : String)
      (prevLastWriteVersion : Int)
deriving DecidableEq, Repr

/-- Event-store version constant persistence.EventStoreVersionV2. -/
def eventStoreVersionV2 : Int := 2

/-- replicateWorkflowStarted conflict handling (source lines 1281-1348), starting from the
result of the brand-new CreateWorkflowExecution.  flushRunID and flushNextEventID are the
values returned by flushCurrentWorkflowBuffer for the equal-version branch. -/
def replicateWorkflowStartedConflict (eventStoreVersion : Int) (incomingRunID : String)
    (incomingVersion incomingTimestamp : Int) (flushRunID : String) (flushNextEventID : Int)
    (createRes : CreateResult) : ReplicateStartedOutcome :=
  match createRes with
  | CreateResult.ok => ReplicateStartedOutcome.created
  | CreateResult.otherError => ReplicateStartedOutcome.failedOther
  | CreateResult.alreadyStarted currentRunID currentState currentLastWriteVersion =>
    if currentRunID = incomingRunID then
      ReplicateStartedOutcome.dropDuplicateStart
    else if currentState = WorkflowState.completed then
      ReplicateStartedOutcome.createReuseCompleted currentRunID currentLastWriteVersion
    else if currentLastWriteVersion > incomingVersion then
      ReplicateStartedOutcome.dropStaleStart
        (if eventStoreVersion = eventStoreVersionV2 then DeleteHistoryKind.deleteBranchV2
         else DeleteHistoryKind.deleteExecutionHistoryV1)
    else if currentLastWriteVersion = incomingVersion then
      ReplicateStartedOutcome.retryExistingWorkflow flushRunID flushNextEventID
    else
      ReplicateStartedOutcome.terminateAndCreateReuse incomingVersion incomingTimestamp
        currentRunID incomingVersion

/-- terminateWorkflow (source lines 1434-1481): none when the target run is not running;
otherwise the synthetic-termination ReplicateEventsRequest handed to ApplyReplicationTask. -/
def terminateWorkflowRequest (cm : ClusterMetadata) (domainID workflowID runID : String)
    (ms : MutableState) (incomingVersion incomingTimestamp : Int) :
    Option ReplicateEventsRequest :=
  if ms.isRunning = false then none
  else
    let nextEventID := ms.nextEventID
    some { sourceCluster := cm.clusterNameForFailoverVersion incomingVersion,
           domainID := domainID, workflowID := workflowID, runID := runID,
           firstEventId := nextEventID, nextEventId := nextEventID + 1,
           version := incomingVersion,
           history := [{ eventId := nextEventID, timestamp := incomingTimestamp,
                         version := incomingVersion,
                         eventType := EventType.workflowExecutionTerminated,
                         reason := workflowTerminationReason,
                         identity := workflowTerminationIdentity }] }

/-- Encoding type of a raw-event blob (subset of shared.EncodingType). -/
inductive EncodingType where
  | thriftRW
  | json
  | otherEncoding
deriving DecidableEq, Repr

/-- Raw-event blob (shared.DataBlob): declared encoding plus opaque bytes. -/
structure DataBlob where
  encodingType : EncodingType
  data : List Nat
deriving DecidableEq, Repr

/-- deserializeBlob (source lines 1555-1571); the thrift decoder itself is external and is
passed as a function. -/
def deserializeBlob (decode : List Nat → Except ReplicatorError (List HistoryEvent))
    (blob : DataBlob) : Except ReplicatorError (List HistoryEvent) :=
  if blob.encodingType ≠ EncodingType.thriftRW then
    Except.error ReplicatorError.unknownEncodingType
  else
    match decode blob.data with
    | Except.error e => Except.error e
    | Except.ok historyEvents =>
        if historyEvents.length = 0 then
          Except.error ReplicatorError.emptyHistoryRawEventBatch
        else Except.ok historyEvents

/-- Dynamic-config state: the runtime-reloadable store, keyed by config-key name
(modelled from the spec, operational configuration). -/
def DynState : Type := String → Option Int

/-- Point update of the dynamic-config store. -/
def updateDyn (dc : DynState) (key : String) (value : Int) : DynState :=
  fun s => if s = key then some value else dc s

/-- Dynamic-config keys involved in the standby-delay wiring. -/
inductive ConfigKey where
  | acquireShardInterval
  | standbyClusterDelay
deriving DecidableEq, Repr

/-- Key-name map (common/service/dynamicconfig/constants.go, keys map lines 106-107). -/
def keyName : ConfigKey → String
  | ConfigKey.acquireShardInterval => "history.acquireShardInterval"
  | ConfigKey.standbyClusterDelay => "history.standbyClusterDelay"

/-- Nanoseconds in one minute (time.Minute). -/
def timeMinute : Int := 60 * 1000000000

/-- Modelled from the spec: Collection.GetDurationProperty yields a property function
reading the named key from the runtime store at call time, with a default. -/
def getDurationProperty (k : ConfigKey) (defaultValue : Int) : DynState → Int :=
  fun dc => (dc (keyName k)).getD defaultValue

/-- History service config fields involved in the standby-delay wiring. -/
structure HistoryConfig where
  acquireShardInterval : DynState → Int
  standbyClusterDelay : DynState → Int

/-- NewConfig (source lines 168-169): AcquireShardInterval with default one minute, and
StandbyClusterDelay built from the AcquireShardInterval key with default five minutes. -/
def newConfig : HistoryConfig :=
  { acquireShardInterval := getDurationProperty ConfigKey.acquireShardInterval timeMinute,
    standbyClusterDelay := getDurationProperty ConfigKey.acquireShardInterval (5 * timeMinute) }

/-- notify (source lines 1547-1553): the standby view of the active cluster clock is the
event time minus the configured standby delay. -/
def notifyStandbyTime (cfg : HistoryConfig) (dc : DynState) (eventTime : Int) : Int :=
  eventTime - cfg.standbyClusterDelay dc

/-- Signals carried by the WorkflowExecutionSignaled events of a batch, in order. -/
def signalsOf : List HistoryEvent → List (String × String × String)
  | [] => []
  | e :: rest =>
    match e.eventType with
    | EventType.workflowExecutionSignaled =>
        (e.signalName, e.signalInput, e.identity) :: signalsOf rest
    | _ => signalsOf rest

/-- Cluster name fixture. -/
def clusterA : String := "cluster-active"

/-- Cluster name fixture. -/
def clusterB : String := "cluster-standby"

/-- Domain id fixture. -/
def domA : String := "domain-1"

/-- Workflow id fixture. -/
def wfA : String := "workflow-1"

/-- Run id fixture. -/
def runA : String := "run-1"

/-- Run id fixture. -/
def runB : String := "run-2"

/-- Fixture for the C3 witness: a running mutable state expecting event 4. -/
def msC3 : MutableState := { isRunning := true, nextEventID := 4 }

/-- Fixture for the C3 witness: an out-of-order batch starting at event 6. -/
def reqC3 : ReplicateEventsRequest :=
  { firstEventId := 6, nextEventId := 7, version := 10, forceBufferEvents := false }

/-- Fixture for the C7 witness: a blob with a non-thrift encoding. -/
def blobC7 : DataBlob := { encodingType := EncodingType.json, data := [1, 2, 3] }

/-- Fixture for the C8 witness: metadata whose last-write owner is the remote cluster. -/
def cmC8 : ClusterMetadata :=
  { clusterNameForFailoverVersion := fun _ => clusterB,
    currentClusterName := clusterA,
    isVersionFromSameCluster := fun _ _ => false }

/-- Fixture for the C8 witness: a running state with buffered in-flight events. -/
def msC8 : MutableState :=
  { isRunning := true, nextEventID := 5, hasBufferedEvents := true,
    replicationState := { currentVersion := 3, lastWriteVersion := 3, lastWriteEventID := 4 } }

/-- Fixture for the C9 witness: metadata for the termination request. -/
def cmC9 : ClusterMetadata :=
  { clusterNameForFailoverVersion := fun _ => clusterB,
    currentClusterName := clusterA,
    isVersionFromSameCluster := fun _ _ => false }

/-- Fixture for the C9 witness: a closed run. -/
def msC9 : MutableState := { isRunning := false, nextEventID := 7 }

/-- Fixture for C5: a two-cluster metadata where every version is local. -/
def cmC5 : ClusterMetadata :=
  { clusterNameForFailoverVersion := fun _ => clusterA,
    currentClusterName := clusterA,
    isVersionFromSameCluster := fun _ _ => true }

/-- Fixture for C5: the stored activity info. -/
def aiC5 : ActivityInfo := { version := 10, attempt := 0, lastHeartBeatUpdatedTime := 1000 }

/-- Fixture for C5: a running state holding the activity at schedule id 7. -/
def msC5 : MutableState :=
  { isRunning := true, nextEventID := 8,
    replicationState := { currentVersion := 10, lastWriteVersion := 10, lastWriteEventID := 7 },
    activityInfos := [(7, aiC5)] }

/-- Fixture for C5: a sync-activity request equal to the stored info on all dimensions. -/
def reqC5 : SyncActivityRequest :=
  { version := 10, scheduledId := 7, attempt := 0, lastHeartbeatTime := 1000 }

/-- Fixture for the C5 witness: a request with a newer heartbeat. -/
def reqC5w : SyncActivityRequest :=
  { version := 10, scheduledId := 7, attempt := 0, lastHeartbeatTime := 2000 }

/-- Fixture for C6: metadata whose last-write owner is the remote cluster. -/
def cmC6 : ClusterMetadata :=
  { clusterNameForFailoverVersion := fun _ => clusterB,
    currentClusterName := clusterA,
    isVersionFromSameCluster := fun _ _ => false }

/-- Fixture for C6: a signal event inside a stale batch. -/
def sigEventC6 : HistoryEvent :=
  { eventId := 4, version := 10, timestamp := 40,
    eventType := EventType.workflowExecutionSignaled, signalName := "sig-x" }

/-- Fixture for C6: a running state whose last write version is 20. -/
def msC6 : MutableState :=
  { isRunning := true, nextEventID := 6,
    replicationState := { currentVersion := 20, lastWriteVersion := 20, lastWriteEventID := 5 } }

/-- Fixture for C6: a stale batch at version 10 carrying one signal. -/
def reqC6 : ReplicateEventsRequest :=
  { firstEventId := 4, nextEventId := 5, version := 10, history := [sigEventC6] }

/-- Fixture for the C6 witness: metadata whose last-write owner is the local cluster. -/
def cmC6w : ClusterMetadata :=
  { clusterNameForFailoverVersion := fun _ => clusterA,
    currentClusterName := clusterA,
    isVersionFromSameCluster := fun _ _ => true }

/-- Fixture for C1: metadata owning every version locally. -/
def cmC1 : ClusterMetadata :=
  { clusterNameForFailoverVersion := fun _ => clusterA,
    currentClusterName := clusterA,
    isVersionFromSameCluster := fun _ _ => false }

/-- Fixture for C1: a state whose local replication info holds the only checkpoint. -/
def msC1 : MutableState :=
  { isRunning := true, nextEventID := 6,
    replicationState := { currentVersion := 10, lastWriteVersion := 10, lastWriteEventID := 5,
                          lastReplicationInfo := [(clusterB, { version := 8, lastEventId := 3 })] } }

/-- Fixture for C1: a failover batch carrying no replication info. -/
def reqC1 : ReplicateEventsRequest :=
  { firstEventId := 6, nextEventId := 7, version := 20,
    history := [{ eventId := 6, version := 20, timestamp := 77,
                  eventType := EventType.other }] }

/-- Fixture for C2: metadata owning every version locally. -/
def cmC2 : ClusterMetadata :=
  { clusterNameForFailoverVersion := fun _ => clusterA,
    currentClusterName := clusterA,
    isVersionFromSameCluster := fun _ _ => true }

/-- Fixture for C2: a non-running state that still holds buffered in-flight events. -/
def msC2 : MutableState :=
  { isRunning := false, nextEventID := 6, hasBufferedEvents := true,
    inFlightDecision := none,
    replicationState := { currentVersion := 10, lastWriteVersion := 10, lastWriteEventID := 5 } }

/-- Fixture for C2: a failover batch whose remote entry matches the local last write. -/
def reqC2 : ReplicateEventsRequest :=
  { firstEventId := 6, nextEventId := 7, version := 11,
    replicationInfo := [(clusterA, { version := 10, lastEventId := 5 })],
    history := [{ eventId := 6, version := 11, timestamp := 100,
                  eventType := EventType.other }] }

/-- Fixture for the C2 witness: a running state with buffered events and an in-flight
decision. -/
def msC2w : MutableState :=
  { isRunning := true, nextEventID := 6, hasBufferedEvents := true,
    inFlightDecision := some { scheduleID := 2, startedID := 3 },
    replicationState := { currentVersion := 10, lastWriteVersion := 10, lastWriteEventID := 5 } }

/-- Association lookup after insert at the same key returns the inserted value. -/
theorem assocLookup_assocInsert {α β : Type} [DecidableEq α] (m : List (α × β)) (k : α)
    (v : β) : assocLookup (assocInsert m k v) k = some v := by
  induction m with
  | nil => simp [assocInsert, assocLookup]
  | cons p rest ih =>
    by_cases h : p.1 = k
    · simp [assocInsert, assocLookup, h]
    · obtain ⟨a, b⟩ := p
      simp only at h
      simp [assocInsert, assocLookup, h, ih]

/-- Claim C7: decoding a raw-event blob fails with UnknownEncodingType whenever the
declared encoding is not thrift-rw, independently of the decoder (so no deserialization
is attempted), fails with EmptyHistoryRawEventBatch when the decoded list is empty, and
otherwise returns the non-empty decoded list. -/
theorem deserializeBlob_spec (blob : DataBlob)
    (decode : List Nat → Except ReplicatorError (List HistoryEvent)) :
    (blob.encodingType ≠ EncodingType.thriftRW →
      ∀ d : List Nat → Except ReplicatorError (List HistoryEvent),
        deserializeBlob d blob = Except.error ReplicatorError.unknownEncodingType)
    ∧ (blob.encodingType = EncodingType.thriftRW →
        (decode blob.data = Except.ok [] →
          deserializeBlob decode blob = Except.error ReplicatorError.emptyHistoryRawEventBatch)
        ∧ (∀ evs, decode blob.data = Except.ok evs → evs ≠ [] →
            deserializeBlob decode blob = Except.ok evs)) := by
  refine ⟨fun hne d => ?_, fun heq => ⟨fun hdec => ?_, fun evs hdec hnil => ?_⟩⟩
  · simp [deserializeBlob, hne]
  · simp [deserializeBlob, heq, hdec]
  · simp [deserializeBlob, heq, hdec, List.length_eq_zero, hnil]

/-- Witness for C7 at a concrete json-encoded blob. -/
theorem deserializeBlob_spec_witness :
    deserializeBlob (fun _ => Except.ok []) blobC7 =
      Except.error ReplicatorError.unknownEncodingType :=
  (deserializeBlob_spec blobC7 (fun _ => Except.ok [])).1 (by decide)
    (fun _ => Except.ok [])

/-- Claim C10: the StandbyClusterDelay config property reads the
history.acquireShardInterval dynamic-config key (default five minutes), the notify
standby clock is the event time minus that value, and writes to the
history.standbyClusterDelay key do not affect it. -/
theorem standbyClusterDelay_follows_acquireShardInterval (dc : DynState) (v t : Int) :
    newConfig.standbyClusterDelay dc =
        (dc (keyName ConfigKey.acquireShardInterval)).getD (5 * timeMinute)
    ∧ newConfig.standbyClusterDelay
        (updateDyn dc (keyName ConfigKey.standbyClusterDelay) v) =
        newConfig.standbyClusterDelay dc
    ∧ notifyStandbyTime newConfig dc t =
        t - (dc (keyName ConfigKey.acquireShardInterval)).getD (5 * timeMinute) := by
  have hne : keyName ConfigKey.acquireShardInterval ≠ keyName ConfigKey.standbyClusterDelay := by
    decide
  refine ⟨rfl, ?_, rfl⟩
  simp [newConfig, getDurationProperty, updateDyn, hne]

/-- Claim C8: flushEventsBuffer and garbageCollectSignals leave the mutable state
unchanged and return success unless the workflow is running and the cluster owning the
current last-write version is the local cluster (canModifyWorkflow). -/
theorem flushAndGC_require_canModify (cm : ClusterMetadata) (ms : MutableState)
    (events : List HistoryEvent)
    (h : ¬(ms.isRunning = true ∧ canModifyWorkflow cm ms = true)) :
    flushEventsBuffer cm ms = Except.ok ms
    ∧ garbageCollectSignals cm ms events = Except.ok (false, ms) := by
  have hcase : ms.isRunning = false ∨ canModifyWorkflow cm ms = false := by
    cases hb : ms.isRunning with
    | false => exact Or.inl rfl
    | true =>
      cases hc : canModifyWorkflow cm ms with
      | false => exact Or.inr rfl
      | true => exact absurd ⟨hb, hc⟩ h
  rcases hcase with h1 | h1
  · exact ⟨by simp [flushEventsBuffer, h1], by simp [garbageCollectSignals, h1]⟩
  · exact ⟨by simp [flushEventsBuffer, h1], by simp [garbageCollectSignals, h1]⟩

/-- Witness for C8: a remote-owned last write makes both operations no-ops. -/
theorem flushAndGC_require_canModify_witness :
    flushEventsBuffer cmC8 msC8 = Except.ok msC8
    ∧ garbageCollectSignals cmC8 msC8 [] = Except.ok (false, msC8) :=
  flushAndGC_require_canModify cmC8 msC8 [] (by decide)

/-- Claim C9: terminateWorkflow is a success no-op when the target run is not running;
when running it synthesizes a WorkflowExecutionTerminated event at the current next
event id with the incoming version and timestamp and the fixed reason and identity, and
hands ApplyReplicationTask the corresponding one-event replication request. -/
theorem terminateWorkflow_spec (cm : ClusterMetadata) (domainID workflowID runID : String)
    (ms : MutableState) (incomingVersion incomingTimestamp : Int) :
    (ms.isRunning = false →
      terminateWorkflowRequest cm domainID workflowID runID ms incomingVersion
        incomingTimestamp = none)
    ∧ (ms.isRunning = true →
      ∃ req, terminateWorkflowRequest cm domainID workflowID runID ms incomingVersion
          incomingTimestamp = some req
        ∧ req.firstEventId = ms.nextEventID
        ∧ req.nextEventId = ms.nextEventID + 1
        ∧ req.version = incomingVersion
        ∧ req.sourceCluster = cm.clusterNameForFailoverVersion incomingVersion
        ∧ req.history = [{ eventId := ms.nextEventID, timestamp := incomingTimestamp,
                           version := incomingVersion,
                           eventType := EventType.workflowExecutionTerminated,
                           reason := workflowTerminationReason,
                           identity := workflowTerminationIdentity }]) := by
  constructor
  · intro h; simp [terminateWorkflowRequest, h]
  · intro h
    refine ⟨{ sourceCluster := cm.clusterNameForFailoverVersion incomingVersion,
              domainID := domainID, workflowID := workflowID, runID := runID,
              firstEventId := ms.nextEventID, nextEventId := ms.nextEventID + 1,
              version := incomingVersion,
              history := [{ eventId := ms.nextEventID, timestamp := incomingTimestamp,
                            version := incomingVersion,
                            eventType := EventType.workflowExecutionTerminated,
                            reason := workflowTerminationReason,
                            identity := workflowTerminationIdentity }] },
      ?_, rfl, rfl, rfl, rfl, rfl⟩
    simp [terminateWorkflowRequest, h]

/-- Witness for C9: a closed run yields no termination event. -/
theorem terminateWorkflow_spec_witness :
    terminateWorkflowRequest cmC9 domA wfA runA msC9 20 99 = none :=
  (terminateWorkflow_spec cmC9 domA wfA runA msC9 20 99).1 (by decide)

/-- Claim C3: duplicate, immediate-apply, non-running-drop, retry-buffer and buffering
decisions of ApplyOtherEvents for a version-checked non-start batch. -/
theorem applyOtherEvents_spec (ms : MutableState) (req : ReplicateEventsRequest) :
    (req.firstEventId < ms.nextEventID →
      applyOtherEvents ms req = ApplyOtherEventsOutcome.dropDuplicate)
    ∧ (req.firstEventId = ms.nextEventID →
      applyOtherEvents ms req = ApplyOtherEventsOutcome.applyNow)
    ∧ (ms.nextEventID < req.firstEventId → ms.isRunning = false →
      applyOtherEvents ms req = ApplyOtherEventsOutcome.dropNotRunning)
    ∧ (ms.nextEventID < req.firstEventId → ms.isRunning = true →
        req.forceBufferEvents = false →
      applyOtherEvents ms req = ApplyOtherEventsOutcome.retryBufferEvents ms.nextEventID)
    ∧ (ms.nextEventID < req.firstEventId → ms.isRunning = true →
        req.forceBufferEvents = true →
      (∀ bt, assocLookup ms.bufferedReplicationTasks req.firstEventId = some bt →
        req.version ≤ bt.version →
        applyOtherEvents ms req = ApplyOtherEventsOutcome.dropOlderBufferedExists)
      ∧ ((assocLookup ms.bufferedReplicationTasks req.firstEventId = none ∨
          ∃ bt, assocLookup ms.bufferedReplicationTasks req.firstEventId = some bt ∧
            bt.version < req.version) →
        applyOtherEvents ms req =
            ApplyOtherEventsOutcome.buffered (bufferReplicationTask ms req)
        ∧ assocLookup (bufferReplicationTask ms req).bufferedReplicationTasks
              req.firstEventId
            = some { firstEventID := req.firstEventId, nextEventID := req.nextEventId,
                     version := req.version, history := req.history })) := by
  refine ⟨fun h1 => ?_, fun h2 => ?_, fun hg hr => ?_, fun hg hr hf => ?_,
    fun hg hr hf => ⟨fun bt hlk hver => ?_, fun hnew => ?_⟩⟩
  · simp [applyOtherEvents, h1]
  · simp [applyOtherEvents, h2]
  · have hnl : ¬(req.firstEventId < ms.nextEventID) := by omega
    simp [applyOtherEvents, hnl, hg, hr]
  · have hnl : ¬(req.firstEventId < ms.nextEventID) := by omega
    simp [applyOtherEvents, hnl, hg, hr, hf]
  · have hnl : ¬(req.firstEventId < ms.nextEventID) := by omega
    simp [applyOtherEvents, hnl, hg, hr, hf, hlk, hver]
  · have hnl : ¬(req.firstEventId < ms.nextEventID) := by omega
    constructor
    · rcases hnew with hnone | ⟨bt, hsome, hlt⟩
      · simp [applyOtherEvents, hnl, hg, hr, hf, hnone]
      · have hnge : ¬(bt.version ≥ req.version) := by omega
        simp [applyOtherEvents, hnl, hg, hr, hf, hsome, hnge]
    · simp [bufferReplicationTask, assocLookup_assocInsert]

/-- Witness for C3 at a concrete out-of-order batch without force-buffer. -/
theorem applyOtherEvents_spec_witness :
    applyOtherEvents msC3 reqC3 = ApplyOtherEventsOutcome.retryBufferEvents 4 :=
  (applyOtherEvents_spec msC3 reqC3).2.2.2.1 (by decide) (by decide) (by decide)

/-- Claim C4: conflict handling of replicateWorkflowStarted after a brand-new create
fails with ExecutionAlreadyStarted for a different, still-relevant current run:
completed current runs retry the create in reuse mode with the current run as previous;
for running current runs a higher current last-write version drops the task and deletes
the half-written history (branch on v2, execution history on v1), an equal version
flushes the current run and returns RetryExistingWorkflow with the flushed run id and
next event id, and a lower version terminates the current run at the incoming version
and timestamp before retrying the create in reuse mode. -/
theorem replicateWorkflowStarted_conflict_spec (eventStoreVersion : Int)
    (incomingRunID : String) (incomingVersion incomingTimestamp : Int)
    (flushRunID : String) (flushNextEventID : Int) (currentRunID : String)
    (currentState : WorkflowState) (currentLastWriteVersion : Int)
    (hne : currentRunID ≠ incomingRunID) :
    (currentState = WorkflowState.completed →
      replicateWorkflowStartedConflict eventStoreVersion incomingRunID incomingVersion
          incomingTimestamp flushRunID flushNextEventID
          (CreateResult.alreadyStarted currentRunID currentState currentLastWriteVersion)
        = ReplicateStartedOutcome.createReuseCompleted currentRunID currentLastWriteVersion)
    ∧ (currentState = WorkflowState.running →
      (incomingVersion < currentLastWriteVersion →
        replicateWorkflowStartedConflict eventStoreVersion incomingRunID incomingVersion
            incomingTimestamp flushRunID flushNextEventID
            (CreateResult.alreadyStarted currentRunID currentState currentLastWriteVersion)
          = ReplicateStartedOutcome.dropStaleStart
              (if eventStoreVersion = eventStoreVersionV2 then
                DeleteHistoryKind.deleteBranchV2
               else DeleteHistoryKind.deleteExecutionHistoryV1))
      ∧ (currentLastWriteVersion = incomingVersion →
        replicateWorkflowStartedConflict eventStoreVersion incomingRunID incomingVersion
            incomingTimestamp flushRunID flushNextEventID
            (CreateResult.alreadyStarted currentRunID currentState currentLastWriteVersion)
          = ReplicateStartedOutcome.retryExistingWorkflow flushRunID flushNextEventID)
      ∧ (currentLastWriteVersion < incomingVersion →
        replicateWorkflowStartedConflict eventStoreVersion incomingRunID incomingVersion
            incomingTimestamp flushRunID flushNextEventID
            (CreateResult.alreadyStarted currentRunID currentState currentLastWriteVersion)
          = ReplicateStartedOutcome.terminateAndCreateReuse incomingVersion
              incomingTimestamp currentRunID incomingVersion)) := by
  refine ⟨fun hc => ?_, fun hr => ⟨fun hgt => ?_, fun heq => ?_, fun hlt => ?_⟩⟩
  · simp [replicateWorkflowStartedConflict, hne, hc]
  · have hns : ¬(currentState = WorkflowState.completed) := by simp [hr]
    have hv : currentLastWriteVersion > incomingVersion := hgt
    simp [replicateWorkflowStartedConflict, hne, hns, hv]
  · have hns : ¬(currentState = WorkflowState.completed) := by simp [hr]
    have hngt : ¬(currentLastWriteVersion > incomingVersion) := by omega
    simp [replicateWorkflowStartedConflict, hne, hns, hngt, heq]
  · have hns : ¬(currentState = WorkflowState.completed) := by simp [hr]
    have hngt : ¬(currentLastWriteVersion > incomingVersion) := by omega
    have hnq : ¬(currentLastWriteVersion = incomingVersion) := by omega
    simp [replicateWorkflowStartedConflict, hne, hns, hngt, hnq]

/-- Witness for C4: a running current run with a lower last-write version is terminated
at the incoming version and timestamp before the reuse-mode create. -/
theorem replicateWorkflowStarted_conflict_spec_witness :
    replicateWorkflowStartedConflict 2 runB 20 555 runA 9
        (CreateResult.alreadyStarted runA WorkflowState.running 10)
      = ReplicateStartedOutcome.terminateAndCreateReuse 20 555 runA 20 :=
  ((replicateWorkflowStarted_conflict_spec 2 runB 20 555 runA 9 runA
      WorkflowState.running 10 (by decide)).2 rfl).2.2 (by decide)

/-- Helper: the guard of flushEventsBuffer makes it a no-op. -/
theorem flushEventsBuffer_noop (cm : ClusterMetadata) (ms : MutableState)
    (h : ms.isRunning = false ∨ ms.hasBufferedEvents = false ∨
      canModifyWorkflow cm ms = false) :
    flushEventsBuffer cm ms = Except.ok ms := by
  simp [flushEventsBuffer, h]

/-- Helper: the guard of garbageCollectSignals makes it a no-op. -/
theorem garbageCollectSignals_noop (cm : ClusterMetadata) (ms : MutableState)
    (events : List HistoryEvent)
    (h : ms.isRunning = false ∨ canModifyWorkflow cm ms = false) :
    garbageCollectSignals cm ms events = Except.ok (false, ms) := by
  simp [garbageCollectSignals, h]

/-- Helper: the garbage-collection fold appends exactly the signals of the events. -/
theorem gcFold_signals (events : List HistoryEvent) :
    ∀ (b : Bool) (ms : MutableState),
      (List.foldl gcStep (b, ms) events).2.signals = ms.signals ++ signalsOf events := by
  induction events with
  | nil => intro b ms; simp [signalsOf]
  | cons e rest ih =>
    intro b ms
    simp only [List.foldl_cons]
    cases htype : e.eventType with
    | workflowExecutionSignaled =>
      have hstep : gcStep (b, ms) e =
          (true, addWorkflowExecutionSignaled e.signalName e.signalInput e.identity ms) := by
        simp [gcStep, htype]
      have hsig : signalsOf (e :: rest) =
          (e.signalName, e.signalInput, e.identity) :: signalsOf rest := by
        simp [signalsOf, htype]
      rw [hstep, ih, hsig]
      simp [addWorkflowExecutionSignaled]
    | workflowExecutionStarted =>
      have hstep : gcStep (b, ms) e = (b, ms) := by simp [gcStep, htype]
      have hsig : signalsOf (e :: rest) = signalsOf rest := by simp [signalsOf, htype]
      rw [hstep, ih, hsig]
    | workflowExecutionTerminated =>
      have hstep : gcStep (b, ms) e = (b, ms) := by simp [gcStep, htype]
      have hsig : signalsOf (e :: rest) = signalsOf rest := by simp [signalsOf, htype]
      rw [hstep, ih, hsig]
    | decisionTaskFailed =>
      have hstep : gcStep (b, ms) e = (b, ms) := by simp [gcStep, htype]
      have hsig : signalsOf (e :: rest) = signalsOf rest := by simp [signalsOf, htype]
      rw [hstep, ih, hsig]
    | other =>
      have hstep : gcStep (b, ms) e = (b, ms) := by simp [gcStep, htype]
      have hsig : signalsOf (e :: rest) = signalsOf rest := by simp [signalsOf, htype]
      rw [hstep, ih, hsig]

/-- Helper: on a running, modifiable workflow, garbageCollectSignals succeeds and adds
exactly the signals of the batch. -/
theorem garbageCollectSignals_signals (cm : ClusterMetadata) (ms : MutableState)
    (events : List HistoryEvent) (hrun : ms.isRunning = true)
    (hmod : canModifyWorkflow cm ms = true) :
    ∃ b ms2, garbageCollectSignals cm ms events = Except.ok (b, ms2)
      ∧ ms2.signals = ms.signals ++ signalsOf events := by
  have hguard : ¬(ms.isRunning = false ∨ canModifyWorkflow cm ms = false) := by
    simp [hrun, hmod]
  by_cases hflag :
      (List.foldl gcStep (false, updateReplicationStateVersion ms.getLastWriteVersion ms)
        events).1 = false
  · refine ⟨false,
      (List.foldl gcStep (false, updateReplicationStateVersion ms.getLastWriteVersion ms)
        events).2, ?_, ?_⟩
    · simp only [garbageCollectSignals, if_neg hguard, if_pos hflag]
    · simp [updateReplicationStateVersion, gcFold_signals]
  · refine ⟨true,
      updateWorkflowExecution
        (List.foldl gcStep (false, updateReplicationStateVersion ms.getLastWriteVersion ms)
          events).2, ?_, ?_⟩
    · simp only [garbageCollectSignals, if_neg hguard, if_neg hflag]
    · simp [updateWorkflowExecution, updateReplicationStateVersion, gcFold_signals]

/-- Claim C6 (amended): a non-start batch whose incoming version is strictly below the
local last-write version is dropped as stale; when the workflow is running and the last
write is owned by the current cluster, every WorkflowExecutionSignaled event of the batch
is added to mutable state as a signal (and only the signal events contribute); otherwise
the drop leaves mutable state unchanged and no signal survives. -/
theorem staleDrop_gc_signals (cm : ClusterMetadata) (eDC dDC iR : Bool) (dcE : Int)
    (ms : MutableState) (req : ReplicateEventsRequest)
    (hgt : req.version < ms.replicationState.lastWriteVersion) :
    (ms.isRunning = true → canModifyWorkflow cm ms = true →
      ∃ ms2, applyOtherEventsVersionChecking cm eDC dDC iR dcE ms req =
          VersionCheckOutcome.dropStale ms2
        ∧ ms2.signals = ms.signals ++ signalsOf req.history)
    ∧ (¬(ms.isRunning = true ∧ canModifyWorkflow cm ms = true) →
      applyOtherEventsVersionChecking cm eDC dDC iR dcE ms req =
        VersionCheckOutcome.dropStale ms) := by
  constructor
  · intro hrun hmod
    obtain ⟨b, ms2, hgc, hsig⟩ := garbageCollectSignals_signals cm ms req.history hrun hmod
    refine ⟨ms2, ?_, hsig⟩
    simp [applyOtherEventsVersionChecking, hgc, hgt]
  · intro hne
    have h2 : ms.isRunning = false ∨ canModifyWorkflow cm ms = false := by
      cases hb : ms.isRunning with
      | false => exact Or.inl rfl
      | true =>
        cases hc : canModifyWorkflow cm ms with
        | false => exact Or.inr rfl
        | true => exact absurd ⟨hb, hc⟩ hne
    have hgc := garbageCollectSignals_noop cm ms req.history h2
    simp [applyOtherEventsVersionChecking, hgc, hgt]

/-- Counterexample for C6: when the last write is owned by the remote cluster, a stale
batch containing a WorkflowExecutionSignaled event is dropped with mutable state
unchanged, so the signal is not garbage-collected into mutable state as the claim
states. -/
theorem staleDrop_signal_lost :
    reqC6.version < msC6.replicationState.lastWriteVersion ∧
    signalsOf reqC6.history ≠ [] ∧
    applyOtherEventsVersionChecking cmC6 false false false 0 msC6 reqC6 =
      VersionCheckOutcome.dropStale msC6 ∧
    msC6.signals = [] := by decide

/-- Witness for C6 (amended) at a locally-owned last write: the dropped batch adds its
signal to mutable state. -/
theorem staleDrop_gc_signals_witness :
    ∃ ms2, applyOtherEventsVersionChecking cmC6w false false false 0 msC6 reqC6 =
        VersionCheckOutcome.dropStale ms2
      ∧ ms2.signals = msC6.signals ++ signalsOf reqC6.history :=
  (staleDrop_gc_signals cmC6w false false false 0 msC6 reqC6 (by decide)).1 rfl (by decide)

/-- Claim C5 (amended): for a sync-activity request below next-event-id whose activity is
still scheduled, the update is applied iff the request strictly exceeds the stored
(version, attempt) lexicographically, or matches both and carries a heartbeat not older
than the stored one (so a request equal on all three dimensions is re-applied, not
skipped); when applied, the timer-status bits are reset iff the request version is not
from the same cluster as the stored version or the stored attempt is smaller. -/
theorem syncActivity_apply_iff (cm : ClusterMetadata) (ms : MutableState)
    (req : SyncActivityRequest) (ai : ActivityInfo)
    (hrun : ms.isRunning = true) (hsched : req.scheduledId < ms.nextEventID)
    (hai : assocLookup ms.activityInfos req.scheduledId = some ai) :
    ((∃ b, syncActivity cm ms req = SyncActivityOutcome.apply b) ↔
      (ai.version < req.version
       ∨ (ai.version = req.version ∧ ai.attempt < req.attempt)
       ∨ (ai.version = req.version ∧ ai.attempt = req.attempt ∧
           ai.lastHeartBeatUpdatedTime ≤ req.lastHeartbeatTime)))
    ∧ (∀ b, syncActivity cm ms req = SyncActivityOutcome.apply b →
        b = (!(cm.isVersionFromSameCluster req.version ai.version) ||
             decide (ai.attempt < req.attempt))) := by
  have h1 : ¬(ms.isRunning = false) := by simp [hrun]
  have h2 : ¬(req.scheduledId ≥ ms.nextEventID) := by omega
  have hred : syncActivity cm ms req =
      (if ai.version > req.version then SyncActivityOutcome.noop
       else if ai.version = req.version ∧ ai.attempt > req.attempt then
         SyncActivityOutcome.noop
       else if ai.version = req.version ∧ ai.attempt = req.attempt ∧
           ai.lastHeartBeatUpdatedTime > req.lastHeartbeatTime then
         SyncActivityOutcome.noop
       else SyncActivityOutcome.apply
         (!(cm.isVersionFromSameCluster req.version ai.version) ||
          decide (ai.attempt < req.attempt))) := by
    unfold syncActivity
    rw [if_neg h1, if_neg h2, hai]
  rw [hred]
  by_cases c1 : ai.version > req.version
  · rw [if_pos c1]
    refine ⟨⟨fun hex => ?_, fun hcond => absurd hcond (by omega)⟩, fun b hb => by simp at hb⟩
    obtain ⟨b, hb⟩ := hex
    simp at hb
  · rw [if_neg c1]
    by_cases c2 : ai.version = req.version ∧ ai.attempt > req.attempt
    · rw [if_pos c2]
      refine ⟨⟨fun hex => ?_, fun hcond => absurd hcond (by omega)⟩, fun b hb => by simp at hb⟩
      obtain ⟨b, hb⟩ := hex
      simp at hb
    · rw [if_neg c2]
      by_cases c3 : ai.version = req.version ∧ ai.attempt = req.attempt ∧
          ai.lastHeartBeatUpdatedTime > req.lastHeartbeatTime
      · rw [if_pos c3]
        refine ⟨⟨fun hex => ?_, fun hcond => absurd hcond (by omega)⟩, fun b hb => by simp at hb⟩
        obtain ⟨b, hb⟩ := hex
        simp at hb
      · rw [if_neg c3]
        refine ⟨⟨fun _ => by omega, fun _ => ⟨_, rfl⟩⟩, fun b hb => ?_⟩
        injection hb with hb2
        exact hb2.symm

/-- Counterexample for C5: a request equal to the stored activity info on version,
attempt and heartbeat is applied by the code, while the claim calls such a request a
no-op. -/
theorem syncActivity_equal_tuple_applied :
    reqC5.version = aiC5.version ∧ reqC5.attempt = aiC5.attempt ∧
    reqC5.lastHeartbeatTime = aiC5.lastHeartBeatUpdatedTime ∧
    assocLookup msC5.activityInfos reqC5.scheduledId = some aiC5 ∧
    syncActivity cmC5 msC5 reqC5 = SyncActivityOutcome.apply false := by decide

/-- Witness for C5 (amended): a same-version same-attempt request with a newer heartbeat
is applied. -/
theorem syncActivity_apply_iff_witness :
    ∃ b, syncActivity cmC5 msC5 reqC5w = SyncActivityOutcome.apply b :=
  ((syncActivity_apply_iff cmC5 msC5 reqC5w aiC5 rfl (by decide) (by decide)).1).mpr
    (by decide)

/-- Helper: once the accumulator carries a real version, the checkpoint fold only grows
it and keeps it real. -/
theorem ckptFold_mono (l : List (String × ReplicationInfo)) :
    ∀ acc : Int × Int, acc.1 ≠ emptyVersion → (∀ p ∈ l, 0 ≤ (p.2).version) →
      acc.1 ≤ (List.foldl ckptStep acc l).1 ∧
        (List.foldl ckptStep acc l).1 ≠ emptyVersion := by
  induction l with
  | nil => intro acc hne _; exact ⟨le_refl _, hne⟩
  | cons p rest ih =>
    intro acc hne hall
    have hp : 0 ≤ (p.2).version := hall p (List.mem_cons_self _ _)
    have hrest : ∀ q ∈ rest, 0 ≤ (q.2).version := fun q hq =>
      hall q (List.mem_cons_of_mem _ hq)
    simp only [List.foldl_cons]
    by_cases hcond : acc.1 = emptyVersion ∨ (p.2).version > acc.1
    · have hstep : ckptStep acc p = ((p.2).version, (p.2).lastEventId) := by
        simp [ckptStep, hcond]
      rw [hstep]
      have hne2 : ((p.2).version, (p.2).lastEventId).1 ≠ emptyVersion := by
        simp only [emptyVersion]; omega
      have h3 := ih ((p.2).version, (p.2).lastEventId) hne2 hrest
      rcases hcond with h | h
      · exact absurd h hne
      · exact ⟨le_trans (le_of_lt h) h3.1, h3.2⟩
    · have hstep : ckptStep acc p = acc := by simp [ckptStep, hcond]
      rw [hstep]
      exact ih acc hne hrest

/-- Helper: every version processed by the checkpoint fold is bounded by the result. -/
theorem ckptFold_bound (l : List (String × ReplicationInfo)) :
    ∀ acc : Int × Int, (∀ p ∈ l, 0 ≤ (p.2).version) →
      ∀ p ∈ l, (p.2).version ≤ (List.foldl ckptStep acc l).1 := by
  induction l with
  | nil => intro acc _ p hp; cases hp
  | cons q rest ih =>
    intro acc hall p hp
    have hq : 0 ≤ (q.2).version := hall q (List.mem_cons_self _ _)
    have hrest : ∀ r ∈ rest, 0 ≤ (r.2).version := fun r hr =>
      hall r (List.mem_cons_of_mem _ hr)
    simp only [List.foldl_cons]
    have hstep : (q.2).version ≤ (ckptStep acc q).1 ∧ (ckptStep acc q).1 ≠ emptyVersion := by
      by_cases hcond : acc.1 = emptyVersion ∨ (q.2).version > acc.1
      · have hstepeq : ckptStep acc q = ((q.2).version, (q.2).lastEventId) := by
          simp [ckptStep, hcond]
        rw [hstepeq]
        refine ⟨le_refl _, ?_⟩
        simp only [emptyVersion]; omega
      · have hstepeq : ckptStep acc q = acc := by simp [ckptStep, hcond]
        push_neg at hcond
        rw [hstepeq]
        exact ⟨hcond.2, hcond.1⟩
    rcases List.mem_cons.mp hp with hpq | hpr
    · rw [hpq]
      exact le_trans hstep.1 (ckptFold_mono rest (ckptStep acc q) hstep.2 hrest).1
    · exact ih (ckptStep acc q) hrest p hpr

/-- Helper: the checkpoint fold yields the start accumulator or a processed entry. -/
theorem ckptFold_mem (l : List (String × ReplicationInfo)) :
    ∀ acc : Int × Int, List.foldl ckptStep acc l = acc ∨
      ∃ p ∈ l, List.foldl ckptStep acc l = ((p.2).version, (p.2).lastEventId) := by
  induction l with
  | nil => intro acc; exact Or.inl rfl
  | cons q rest ih =>
    intro acc
    simp only [List.foldl_cons]
    rcases ih (ckptStep acc q) with h | ⟨p, hp, h⟩
    · rw [h]
      by_cases hcond : acc.1 = emptyVersion ∨ (q.2).version > acc.1
      · exact Or.inr ⟨q, List.mem_cons_self _ _, by simp [ckptStep, hcond]⟩
      · exact Or.inl (by simp [ckptStep, hcond])
    · exact Or.inr ⟨p, List.mem_cons_of_mem _ hp, h⟩

/-- Helper: on a non-empty entry list of nonnegative versions the fold result is real. -/
theorem ckptFold_ne_empty (l : List (String × ReplicationInfo)) (hne : l ≠ [])
    (hall : ∀ p ∈ l, 0 ≤ (p.2).version) :
    (List.foldl ckptStep (emptyVersion, emptyEventID) l).1 ≠ emptyVersion := by
  cases l with
  | nil => exact absurd rfl hne
  | cons q rest =>
    have hq : 0 ≤ (q.2).version := hall q (List.mem_cons_self _ _)
    have hrest : ∀ p ∈ rest, 0 ≤ (p.2).version := fun p hp =>
      hall p (List.mem_cons_of_mem _ hp)
    simp only [List.foldl_cons]
    have hstep : ckptStep (emptyVersion, emptyEventID) q =
        ((q.2).version, (q.2).lastEventId) := by
      simp [ckptStep]
    rw [hstep]
    exact (ckptFold_mono rest _ (by simp only [emptyVersion]; omega) hrest).2

/-- Helper: getLatestCheckpoint as one fold over the concatenated maps. -/
theorem getLatestCheckpoint_eq_foldl (remote locals : List (String × ReplicationInfo)) :
    getLatestCheckpoint remote locals =
      List.foldl ckptStep (emptyVersion, emptyEventID) (remote ++ locals) := by
  simp [getLatestCheckpoint, List.foldl_append]

/-- Helper: getLatestCheckpoint returns the sentinel on empty maps, and otherwise a
maximum-version entry of the concatenated maps. -/
theorem getLatestCheckpoint_spec (remote locals : List (String × ReplicationInfo))
    (hall : ∀ p ∈ remote ++ locals, 0 ≤ (p.2).version) :
    (remote ++ locals = [] →
      getLatestCheckpoint remote locals = (emptyVersion, emptyEventID))
    ∧ (remote ++ locals ≠ [] → ∃ p ∈ remote ++ locals,
        getLatestCheckpoint remote locals = ((p.2).version, (p.2).lastEventId)
        ∧ (p.2).version ≠ emptyVersion
        ∧ ∀ q ∈ remote ++ locals, (q.2).version ≤ (p.2).version) := by
  constructor
  · intro hnil
    rw [getLatestCheckpoint_eq_foldl, hnil]
    rfl
  · intro hne
    have hner := ckptFold_ne_empty (remote ++ locals) hne hall
    rcases ckptFold_mem (remote ++ locals) (emptyVersion, emptyEventID) with h | ⟨p, hp, h⟩
    · rw [h] at hner
      exact absurd rfl hner
    · refine ⟨p, hp, by rw [getLatestCheckpoint_eq_foldl, h], ?_, ?_⟩
      · have := hall p hp
        simp only [emptyVersion]
        omega
      · intro q hq
        have hb := ckptFold_bound (remote ++ locals) (emptyVersion, emptyEventID) hall q hq
        rw [h] at hb
        exact hb

/-- Helper: under a failover version bump with a locally-owned previous active cluster,
version checking reduces to the missing-entry branch when the remote replication info
has no entry for that cluster. -/
theorem versionChecking_reduce_none (cm : ClusterMetadata) (eDC dDC iR : Bool) (dcE : Int)
    (ms : MutableState) (req : ReplicateEventsRequest)
    (hlt : ms.replicationState.lastWriteVersion < req.version)
    (hprev : cm.clusterNameForFailoverVersion ms.replicationState.lastWriteVersion =
      cm.currentClusterName)
    (hnone : assocLookup req.replicationInfo
      (cm.clusterNameForFailoverVersion ms.replicationState.lastWriteVersion) = none) :
    applyOtherEventsVersionChecking cm eDC dDC iR dcE ms req =
      versionCheckingMissingCase ms req := by
  have hngt : ¬(ms.replicationState.lastWriteVersion > req.version) := by omega
  have hneq : ¬(ms.replicationState.lastWriteVersion = req.version) := by omega
  have hprevcond : ¬(cm.clusterNameForFailoverVersion ms.replicationState.lastWriteVersion ≠
      cm.currentClusterName) := by simp [hprev]
  simp only [applyOtherEventsVersionChecking, if_neg hngt, if_neg hneq, if_neg hprevcond,
    hnone]

/-- Helper: under a failover version bump with a locally-owned previous active cluster,
version checking reduces to the with-entry branch at the looked-up entry. -/
theorem versionChecking_reduce_some (cm : ClusterMetadata) (eDC dDC iR : Bool) (dcE : Int)
    (ms : MutableState) (req : ReplicateEventsRequest) (ri : ReplicationInfo)
    (hlt : ms.replicationState.lastWriteVersion < req.version)
    (hprev : cm.clusterNameForFailoverVersion ms.replicationState.lastWriteVersion =
      cm.currentClusterName)
    (hsome : assocLookup req.replicationInfo
      (cm.clusterNameForFailoverVersion ms.replicationState.lastWriteVersion) = some ri) :
    applyOtherEventsVersionChecking cm eDC dDC iR dcE ms req =
      versionCheckingWithEntry cm ms req ri := by
  have hngt : ¬(ms.replicationState.lastWriteVersion > req.version) := by omega
  have hneq : ¬(ms.replicationState.lastWriteVersion = req.version) := by omega
  have hprevcond : ¬(cm.clusterNameForFailoverVersion ms.replicationState.lastWriteVersion ≠
      cm.currentClusterName) := by simp [hprev]
  simp only [applyOtherEventsVersionChecking, if_neg hngt, if_neg hneq, if_neg hprevcond,
    hsome]

/-- Claim C1: during version checking of a non-start batch with the local last write
strictly below the incoming version and the previous active cluster equal to the current
cluster, a missing remote replication-info entry for that cluster, or one whose version
is strictly below the local last write version, makes the replicator compute the latest
common checkpoint as a maximum-version entry over the remote and local replication-info
maps, fail with ImpossibleLocalRemoteMissingReplicationInfo when both maps are empty,
and otherwise reset mutable state to that entry's event id with the incoming version and
incoming timestamp; an entry whose version is strictly above the local last write fails
with ImpossibleRemoteClaimSeenHigherVersion. -/
theorem versionChecking_remoteRejected_spec (cm : ClusterMetadata) (eDC dDC iR : Bool)
    (dcE : Int) (ms : MutableState) (req : ReplicateEventsRequest)
    (hlt : ms.replicationState.lastWriteVersion < req.version)
    (hprev : cm.clusterNameForFailoverVersion ms.replicationState.lastWriteVersion =
      cm.currentClusterName)
    (hremote : ∀ p ∈ req.replicationInfo, 0 ≤ (p.2).version)
    (hlocal : ∀ p ∈ ms.replicationState.lastReplicationInfo, 0 ≤ (p.2).version) :
    ((assocLookup req.replicationInfo (cm.clusterNameForFailoverVersion
        ms.replicationState.lastWriteVersion) = none
      ∨ ∃ ri, assocLookup req.replicationInfo (cm.clusterNameForFailoverVersion
          ms.replicationState.lastWriteVersion) = some ri
        ∧ ri.version < ms.replicationState.lastWriteVersion) →
      ((req.replicationInfo = [] ∧ ms.replicationState.lastReplicationInfo = [] →
        applyOtherEventsVersionChecking cm eDC dDC iR dcE ms req =
          VersionCheckOutcome.failed
            ReplicatorError.impossibleLocalRemoteMissingReplicationInfo)
      ∧ (¬(req.replicationInfo = [] ∧ ms.replicationState.lastReplicationInfo = []) →
        ∃ p ∈ req.replicationInfo ++ ms.replicationState.lastReplicationInfo,
          (∀ q ∈ req.replicationInfo ++ ms.replicationState.lastReplicationInfo,
            (q.2).version ≤ (p.2).version)
          ∧ applyOtherEventsVersionChecking cm eDC dDC iR dcE ms req =
              VersionCheckOutcome.reset ms (p.2).lastEventId req.version
                (incomingTimestamp req))))
    ∧ (∀ ri, assocLookup req.replicationInfo (cm.clusterNameForFailoverVersion
          ms.replicationState.lastWriteVersion) = some ri →
        ms.replicationState.lastWriteVersion < ri.version →
        applyOtherEventsVersionChecking cm eDC dDC iR dcE ms req =
          VersionCheckOutcome.failed
            ReplicatorError.impossibleRemoteClaimSeenHigherVersion) := by
  have hall : ∀ p ∈ req.replicationInfo ++ ms.replicationState.lastReplicationInfo,
      0 ≤ (p.2).version := by
    intro p hp
    rcases List.mem_append.mp hp with h | h
    · exact hremote p h
    · exact hlocal p h
  constructor
  · intro hmiss
    have hmc : applyOtherEventsVersionChecking cm eDC dDC iR dcE ms req =
        versionCheckingMissingCase ms req := by
      rcases hmiss with hnone | ⟨ri, hsome, hlt2⟩
      · exact versionChecking_reduce_none cm eDC dDC iR dcE ms req hlt hprev hnone
      · rw [versionChecking_reduce_some cm eDC dDC iR dcE ms req ri hlt hprev hsome]
        unfold versionCheckingWithEntry
        rw [if_pos hlt2]
    constructor
    · intro hboth
      rw [hmc]
      unfold versionCheckingMissingCase
      have hck := (getLatestCheckpoint_spec req.replicationInfo
        ms.replicationState.lastReplicationInfo hall).1 (by rw [hboth.1, hboth.2]; rfl)
      rw [hck]
      simp
    · intro hnboth
      have hne : req.replicationInfo ++ ms.replicationState.lastReplicationInfo ≠ [] := by
        intro hnil
        rcases List.append_eq_nil.mp hnil with ⟨h1, h2⟩
        exact hnboth ⟨h1, h2⟩
      obtain ⟨p, hp, hckeq, hpne, hbound⟩ := (getLatestCheckpoint_spec req.replicationInfo
        ms.replicationState.lastReplicationInfo hall).2 hne
      refine ⟨p, hp, hbound, ?_⟩
      rw [hmc]
      unfold versionCheckingMissingCase
      rw [hckeq]
      simp only []
      rw [if_neg hpne]
  · intro ri hsome hgt
    rw [versionChecking_reduce_some cm eDC dDC iR dcE ms req ri hlt hprev hsome]
    unfold versionCheckingWithEntry
    have h1 : ¬(ms.replicationState.lastWriteVersion > ri.version) := by omega
    rw [if_neg h1, if_pos hgt]

/-- Witness for C1: a batch with no remote replication info resets to the single local
replication-info entry. -/
theorem versionChecking_remoteRejected_spec_witness :
    ∃ p ∈ reqC1.replicationInfo ++ msC1.replicationState.lastReplicationInfo,
      (∀ q ∈ reqC1.replicationInfo ++ msC1.replicationState.lastReplicationInfo,
        (q.2).version ≤ (p.2).version)
      ∧ applyOtherEventsVersionChecking cmC1 false false false 0 msC1 reqC1 =
          VersionCheckOutcome.reset msC1 (p.2).lastEventId reqC1.version
            (incomingTimestamp reqC1) :=
  ((versionChecking_remoteRejected_spec cmC1 false false false 0 msC1 reqC1 (by decide)
      (by decide) (by decide) (by decide)).1 (Or.inl (by decide))).2 (by decide)

/-- Claim C2 (amended): during version checking of a non-start batch after a failover,
with the previous active cluster equal to the current cluster and a remote entry whose
version equals the local last write version: a remote last event id above the local
last-write event id fails with CorruptedReplicationInfo; otherwise, when the workflow is
running with buffered in-flight events, the buffer is flushed by synthesizing a
DecisionTaskFailed event with the failover-close-decision cause (failing with
CorruptedMutableStateDecision when no decision is in flight) and mutable state is then
reset to (remote last event id, incoming version, incoming timestamp); when the workflow
is not running or has no buffered events, no event is synthesized and the batch resets
iff the remote last event id is strictly below the local one or buffered events remain,
and is accepted without reset when the event ids match with no buffer. -/
theorem versionChecking_equalRemoteVersion_spec (cm : ClusterMetadata) (eDC dDC iR : Bool)
    (dcE : Int) (ms : MutableState) (req : ReplicateEventsRequest) (ri : ReplicationInfo)
    (hlt : ms.replicationState.lastWriteVersion < req.version)
    (hprev : cm.clusterNameForFailoverVersion ms.replicationState.lastWriteVersion =
      cm.currentClusterName)
    (hsome : assocLookup req.replicationInfo (cm.clusterNameForFailoverVersion
      ms.replicationState.lastWriteVersion) = some ri)
    (hveq : ri.version = ms.replicationState.lastWriteVersion)
    (hinv : ms.replicationState.lastWriteEventID < ms.nextEventID) :
    (ms.replicationState.lastWriteEventID < ri.lastEventId →
      applyOtherEventsVersionChecking cm eDC dDC iR dcE ms req =
        VersionCheckOutcome.failed ReplicatorError.corruptedReplicationInfo)
    ∧ (ri.lastEventId ≤ ms.replicationState.lastWriteEventID →
      (ms.isRunning = true → ms.hasBufferedEvents = true →
        (ms.inFlightDecision = none →
          applyOtherEventsVersionChecking cm eDC dDC iR dcE ms req =
            VersionCheckOutcome.failed ReplicatorError.corruptedMutableStateDecision)
        ∧ (∀ di, ms.inFlightDecision = some di →
          applyOtherEventsVersionChecking cm eDC dDC iR dcE ms req =
            VersionCheckOutcome.reset
              (updateWorkflowExecution (addDecisionTaskFailedEvent di.scheduleID
                di.startedID decisionTaskFailedCauseFailoverCloseDecision
                (updateReplicationStateVersion ms.getLastWriteVersion ms)))
              ri.lastEventId req.version (incomingTimestamp req)
          ∧ (addDecisionTaskFailedEvent di.scheduleID di.startedID
                decisionTaskFailedCauseFailoverCloseDecision
                (updateReplicationStateVersion ms.getLastWriteVersion ms)).events =
              ms.events ++ [{ eventId := ms.nextEventID,
                              version := ms.replicationState.lastWriteVersion,
                              eventType := EventType.decisionTaskFailed,
                              cause := decisionTaskFailedCauseFailoverCloseDecision,
                              identity := identityHistoryService }]))
      ∧ (¬(ms.isRunning = true ∧ ms.hasBufferedEvents = true) →
        (ri.lastEventId < ms.replicationState.lastWriteEventID ∨
            ms.hasBufferedEvents = true →
          applyOtherEventsVersionChecking cm eDC dDC iR dcE ms req =
            VersionCheckOutcome.reset ms ri.lastEventId req.version (incomingTimestamp req))
        ∧ (ri.lastEventId = ms.replicationState.lastWriteEventID →
            ms.hasBufferedEvents = false →
          applyOtherEventsVersionChecking cm eDC dDC iR dcE ms req =
            VersionCheckOutcome.continueApply ms))) := by
  have hred := versionChecking_reduce_some cm eDC dDC iR dcE ms req ri hlt hprev hsome
  have h1 : ¬(ms.replicationState.lastWriteVersion > ri.version) := by omega
  have h2 : ¬(ms.replicationState.lastWriteVersion < ri.version) := by omega
  have hmod : canModifyWorkflow cm ms = true := by
    simp [canModifyWorkflow, MutableState.getLastWriteVersion, hprev]
  constructor
  · intro hgt3
    rw [hred]
    unfold versionCheckingWithEntry
    rw [if_neg h1, if_neg h2, if_pos hgt3]
  · intro hle3
    have h3 : ¬(ri.lastEventId > ms.replicationState.lastWriteEventID) := by omega
    constructor
    · intro hrun hbuf
      have hguard : ¬(ms.isRunning = false ∨ ms.hasBufferedEvents = false ∨
          canModifyWorkflow cm ms = false) := by
        simp [hrun, hbuf, hmod]
      constructor
      · intro hdec
        have hflush : flushEventsBuffer cm ms =
            Except.error ReplicatorError.corruptedMutableStateDecision := by
          unfold flushEventsBuffer
          rw [if_neg hguard, hdec]
        rw [hred]
        unfold versionCheckingWithEntry
        rw [if_neg h1, if_neg h2, if_neg h3, hflush]
      · intro di hdec
        have hflush : flushEventsBuffer cm ms =
            Except.ok (updateWorkflowExecution (addDecisionTaskFailedEvent di.scheduleID
              di.startedID decisionTaskFailedCauseFailoverCloseDecision
              (updateReplicationStateVersion ms.getLastWriteVersion ms))) := by
          unfold flushEventsBuffer
          rw [if_neg hguard, hdec]
        constructor
        · rw [hred]
          unfold versionCheckingWithEntry
          rw [if_neg h1, if_neg h2, if_neg h3, hflush]
          have hcond : ri.lastEventId <
              (updateWorkflowExecution (addDecisionTaskFailedEvent di.scheduleID
                di.startedID decisionTaskFailedCauseFailoverCloseDecision
                (updateReplicationStateVersion ms.getLastWriteVersion ms))).replicationState.lastWriteEventID ∨
              (updateWorkflowExecution (addDecisionTaskFailedEvent di.scheduleID
                di.startedID decisionTaskFailedCauseFailoverCloseDecision
                (updateReplicationStateVersion ms.getLastWriteVersion ms))).hasBufferedEvents
                = true := by
            left
            simp only [updateWorkflowExecution, addDecisionTaskFailedEvent,
              updateReplicationStateVersion]
            omega
          simp [hcond]
        · simp [addDecisionTaskFailedEvent, updateReplicationStateVersion,
            MutableState.getLastWriteVersion]
    · intro hnotflush
      have hguard : ms.isRunning = false ∨ ms.hasBufferedEvents = false ∨
          canModifyWorkflow cm ms = false := by
        cases hb : ms.isRunning with
        | false => exact Or.inl rfl
        | true =>
          cases hc : ms.hasBufferedEvents with
          | false => exact Or.inr (Or.inl rfl)
          | true => exact absurd ⟨hb, hc⟩ hnotflush
      have hflush := flushEventsBuffer_noop cm ms hguard
      constructor
      · intro hcond
        rw [hred]
        unfold versionCheckingWithEntry
        rw [if_neg h1, if_neg h2, if_neg h3, hflush]
        simp [hcond]
      · intro heq hnobuf
        rw [hred]
        unfold versionCheckingWithEntry
        rw [if_neg h1, if_neg h2, if_neg h3, hflush]
        have hcond : ¬(ri.lastEventId < ms.replicationState.lastWriteEventID ∨
            ms.hasBufferedEvents = true) := by
          simp [heq, hnobuf]
        simp [hcond]

/-- Counterexample for C2: with buffered in-flight events on a workflow that is not
running, the reset to (remote last event id, incoming version, incoming timestamp)
happens, but no DecisionTaskFailed event is synthesized and the buffer is not released:
the state handed to the reset equals the unchanged input state. -/
theorem versionChecking_noFlushWhenNotRunning :
    msC2.hasBufferedEvents = true ∧
    applyOtherEventsVersionChecking cmC2 false false false 0 msC2 reqC2 =
      VersionCheckOutcome.reset msC2 5 11 100 ∧
    msC2.events = [] := by decide

/-- Witness for C2 (amended): on a running state with buffered events and an in-flight
decision, the buffer is flushed through a synthesized DecisionTaskFailed event and the
state is reset to the remote last event id with the incoming version and timestamp. -/
theorem versionChecking_equalRemoteVersion_spec_witness :
    applyOtherEventsVersionChecking cmC2 false false false 0 msC2w reqC2 =
      VersionCheckOutcome.reset
        (updateWorkflowExecution (addDecisionTaskFailedEvent 2 3
          decisionTaskFailedCauseFailoverCloseDecision
          (updateReplicationStateVersion msC2w.getLastWriteVersion msC2w)))
        5 11 100 :=
  ((((versionChecking_equalRemoteVersion_spec cmC2 false false false 0 msC2w reqC2
      { version := 10, lastEventId := 5 } (by decide) (by decide) (by decide) (by decide)
      (by decide)).2 (by decide)).1 rfl rfl).2 { scheduleID := 2, startedID := 3 } rfl).1

end Cadence
